import Mathlib

/-!
Verification of the binary-tree construction/metrics utility
(`Problem.py`, `problemvar.py`, `firtst1.py`).

Conventions of the embedding:
* A Python `TreeNode` reference that may be `None` is modelled by the
  inductive `TreeNode` below, whose `leaf` constructor stands for `None`
  and whose `node` constructor stands for an actual `TreeNode` object.
* Python ints are modelled as `Int`; list indices as `Nat`.
* Raw input (`input_data`) is either a list of ints or a string
  (`InputData`), matching the two input kinds the repository feeds in.
* Functions that can raise a Python exception return `Except String _`,
  the error string being the exception's message.
* Loops and recursions whose Python counterpart terminates by running an
  index off the input are given an explicit fuel argument; every entry
  point passes fuel that dominates the number of iterations the Python
  code can perform, so the fuel-exhaustion branches are unreachable.
-/

/-- `TreeNode` (identical in all three source files): a binary-tree node
holding an integer `data` and optional children.  `leaf` models the
absence of a node (Python `None`). -/
inductive TreeNode where
  | leaf : TreeNode
  | node (data : Int) (left : TreeNode) (right : TreeNode) : TreeNode
deriving DecidableEq, Repr

/-- Raw input to the constructors: a Python list of ints or a string
(modelled as its character list). -/
inductive InputData where
  | list : List Int → InputData
  | str : List Char → InputData
deriving DecidableEq, Repr

/-- `AdvancedTreeConstructor.detect_input_format` (`Problem.py` lines 9-20,
identical in `problemvar.py`): `None` for empty input, else first match of
level-order (list containing `-1` or `-999`), parenthesis (string containing
`(` or `)`), with `"pre_order"` as the default fallback. -/
def detect_input_format : InputData → Option String
  | .list xs =>
    if xs = [] then none
    else if -1 ∈ xs ∨ -999 ∈ xs then some "level_order"
    else some "pre_order"
  | .str s =>
    if s = [] then none
    else if '(' ∈ s ∨ ')' ∈ s then some "parenthesis"
    else some "pre_order"

/-- A heap cell for the imperative level-order construction: the node's
data and the store indices of its children (`none` = Python `None`). -/
structure SNode where
  data : Int
  left : Option Nat
  right : Option Nat
deriving DecidableEq, Repr

/-- `current.left = TreeNode(...)`: point the `left` field of cell `id`
at cell `cid`. -/
def setLeftId (store : List SNode) (id cid : Nat) : List SNode :=
  match store.getD id ⟨0, none, none⟩ with
  | ⟨d, _, r⟩ => store.set id ⟨d, some cid, r⟩

/-- `current.right = TreeNode(...)`: point the `right` field of cell `id`
at cell `cid`. -/
def setRightId (store : List SNode) (id cid : Nat) : List SNode :=
  match store.getD id ⟨0, none, none⟩ with
  | ⟨d, l, _⟩ => store.set id ⟨d, l, some cid⟩

/-- The `while queue and i < len(level_order)` loop shared verbatim by
`AdvancedTreeConstructor.build_from_level_order` (`Problem.py` lines 46-59)
and `LevelOrderTreeConstructor.build_tree` (`firtst1.py` lines 63-79); the
two sources differ only in the null test, passed here as `isNull`
(`!= null_marker` resp. `not in null_markers`).  Nodes live in a store of
`SNode` cells (creation order = cell index); the queue holds cell indices.
Fuel dominates the iteration count (the loop adds 2 to `i` each pass). -/
def levelLoop (xs : List Int) (isNull : Int → Bool) :
    Nat → List SNode → List Nat → Nat → List SNode
  | 0, store, _, _ => store
  | fuel + 1, store, queue, i =>
    match queue with
    | [] => store
    | current :: rest =>
      if i < xs.length then
        let p1 : List SNode × List Nat :=
          if isNull (xs.getD i 0) then (store, rest)
          else (setLeftId (store ++ [⟨xs.getD i 0, none, none⟩]) current store.length,
                rest ++ [store.length])
        let p2 : List SNode × List Nat :=
          if i + 1 < xs.length then
            if isNull (xs.getD (i + 1) 0) then p1
            else (setRightId (p1.1 ++ [⟨xs.getD (i + 1) 0, none, none⟩]) current p1.1.length,
                  p1.2 ++ [p1.1.length])
          else p1
        levelLoop xs isNull fuel p2.1 p2.2 (i + 2)
      else store

/-- Read the tree rooted at cell `id` out of the store.  Children always
have larger cell indices than their parent, so fuel `store.length`
suffices; a dangling index (impossible for stores built by `levelLoop`)
reads as `leaf`. -/
def toTree (store : List SNode) : Nat → Nat → TreeNode
  | 0, _ => .leaf
  | fuel + 1, id =>
    match store[id]? with
    | none => .leaf
    | some s =>
      .node s.data
        (match s.left with
         | none => .leaf
         | some l => toTree store fuel l)
        (match s.right with
         | none => .leaf
         | some r => toTree store fuel r)

/-- `AdvancedTreeConstructor.build_from_level_order` (`Problem.py` lines
39-61, identical in `problemvar.py`): empty input or a leading null marker
gives the empty tree, otherwise a root is made from the first element and
the BFS loop `levelLoop` attaches children, the null test being equality
with `null_marker` (the Python default argument is `-1`). -/
def build_from_level_order (level_order : List Int) (null_marker : Int) : TreeNode :=
  match level_order with
  | [] => .leaf
  | x :: _ =>
    if x = null_marker then .leaf
    else
      let store :=
        levelLoop level_order (fun a => a == null_marker) (level_order.length + 1)
          [⟨x, none, none⟩] [0] 1
      toTree store store.length 0

namespace LevelOrderTreeConstructor

/-- `LevelOrderTreeConstructor.build_tree` (`firtst1.py` lines 29-81) with
its default null markers.  The Python default set is `{-1, -999, None}`;
`None` cannot occur in a list of ints, so the marker list here is
`[-1, -999]`.  The function mutates its argument (it pops leading null
markers off the caller's list), so the embedding returns the constructed
tree together with the final state of the caller's list. -/
def build_tree (level_order : List Int) : TreeNode × List Int :=
  let null_markers : List Int := [-1, -999]
  if level_order = [] ∨ level_order.all (fun x => decide (x ∈ null_markers)) then
    (.leaf, level_order)
  else
    let stripped := level_order.dropWhile (fun x => decide (x ∈ null_markers))
    match stripped with
    | [] => (.leaf, stripped)
    | x :: _ =>
      let store :=
        levelLoop stripped (fun a => decide (a ∈ null_markers)) (stripped.length + 1)
          [⟨x, none, none⟩] [0] 1
      (toTree store store.length 0, stripped)

end LevelOrderTreeConstructor

/-- `max_depth` (`firtst1.py` lines 83-106, identical in `Problem.py` and
`problemvar.py`): 0 for the empty tree, else one plus the larger child
depth (the source spells `max` as `left if left > right else right`). -/
def max_depth : TreeNode → Nat
  | .leaf => 0
  | .node _ l r =>
    let left_depth := max_depth l
    let right_depth := max_depth r
    1 + (if left_depth > right_depth then left_depth else right_depth)

/-- `check_height`, the inner function of
`LevelOrderTreeConstructor.is_balanced_tree` (`firtst1.py` lines 108-149):
returns `(is_balanced, height)` per subtree in one bottom-up pass. -/
def check_height : TreeNode → Bool × Nat
  | .leaf => (true, 0)
  | .node _ l r =>
    let left_balanced := (check_height l).1
    let left_height := (check_height l).2
    let right_balanced := (check_height r).1
    let right_height := (check_height r).2
    let height_diff := max left_height right_height - min left_height right_height
    (left_balanced && right_balanced && decide (height_diff ≤ 1),
     1 + max left_height right_height)

/-- `LevelOrderTreeConstructor.is_balanced_tree` (`firtst1.py`): the
balanced flag of `check_height`. -/
def is_balanced_tree (root : TreeNode) : Bool :=
  (check_height root).1

/-- `diameter_helper`, the inner function of `tree_diameter`
(`firtst1.py` lines 152-187): returns `(diameter, height)` per subtree;
the candidate through the current node is
`left_height + right_height + 1`. -/
def diameter_helper : TreeNode → Nat × Nat
  | .leaf => (0, 0)
  | .node _ l r =>
    let left_diameter := (diameter_helper l).1
    let left_height := (diameter_helper l).2
    let right_diameter := (diameter_helper r).1
    let right_height := (diameter_helper r).2
    (max (max left_diameter right_diameter) (left_height + right_height + 1),
     1 + max left_height right_height)

/-- `tree_diameter` (`firtst1.py` lines 152-187): the diameter component
of `diameter_helper` at the root. -/
def tree_diameter (root : TreeNode) : Nat :=
  (diameter_helper root).1

/-- The value-scanning `while` of `parse_tree` inside
`build_from_parenthesis` (`Problem.py` lines 67-70): advance `i` over a
maximal run of digit characters and `-` signs; returns the final `i`.
Fuel dominates the run length. -/
def parseValEnd (s : List Char) : Nat → Nat → Nat
  | 0, i => i
  | fuel + 1, i =>
    if i < s.length ∧ ((s.getD i ' ').isDigit ∨ s.getD i ' ' = '-') then
      parseValEnd s fuel (i + 1)
    else i

/-- Python slice `s[start:i]` for `start ≤ i`. -/
def pySlice (s : List Char) (start stop : Nat) : List Char :=
  (s.drop start).take (stop - start)

/-- Python `int(text)` restricted to the character runs the parenthesis
parser can hand it (digits and `-` signs): an optional single leading `-`
followed by at least one digit yields the integer, anything else raises
`ValueError` (in particular the empty slice produced when the scanner
stands on a non-numeric character). -/
def pyInt : List Char → Except String Int
  | [] => .error "invalid literal for int() with base 10"
  | '-' :: rest =>
    if rest ≠ [] ∧ rest.all Char.isDigit then
      .ok (-(rest.foldl (fun acc c => acc * 10 + (c.toNat - '0'.toNat)) 0 : Nat))
    else .error "invalid literal for int() with base 10"
  | s =>
    if s.all Char.isDigit then
      .ok ((s.foldl (fun acc c => acc * 10 + (c.toNat - '0'.toNat)) 0 : Nat))
    else .error "invalid literal for int() with base 10"

/-- `parse_tree`, the inner function of `build_from_parenthesis`
(`Problem.py` lines 63-87, identical in `problemvar.py`): at position `i`,
scan a value token and convert it with `int`; if the next character is
`(`, skip it, parse the left subtree and skip one closing character; the
same again for the right subtree.  Returns the node and the final cursor.
Note that the closing character is skipped without being checked, and
parsing stops without demanding the cursor reach the end of the text.
Fuel dominates the recursion depth (each nested call starts strictly
further right, and never past the end). -/
def parse_tree (s : List Char) : Nat → Nat → Except String (TreeNode × Nat)
  | 0, _ => .error "maximum recursion depth exceeded"
  | fuel + 1, i =>
    let j := parseValEnd s (s.length + 1) i
    match pyInt (pySlice s i j) with
    | .error e => .error e
    | .ok v =>
      let step1 : Except String (TreeNode × Nat) :=
        if j < s.length ∧ s.getD j ' ' = '(' then
          match parse_tree s fuel (j + 1) with
          | .error e => .error e
          | .ok (l, j2) => .ok (l, j2 + 1)
        else .ok (.leaf, j)
      match step1 with
      | .error e => .error e
      | .ok (l, k) =>
        let step2 : Except String (TreeNode × Nat) :=
          if k < s.length ∧ s.getD k ' ' = '(' then
            match parse_tree s fuel (k + 1) with
            | .error e => .error e
            | .ok (r, k2) => .ok (r, k2 + 1)
          else .ok (.leaf, k)
        match step2 with
        | .error e => .error e
        | .ok (r, k2) => .ok (.node v l r, k2)

/-- `AdvancedTreeConstructor.build_from_parenthesis` (`Problem.py` lines
63-87, identical in `problemvar.py`): empty text gives the empty tree,
otherwise `parse_tree` runs from position 0; a raised `ValueError` from
`int` propagates as the error. -/
def build_from_parenthesis (s : List Char) : Except String TreeNode :=
  if s = [] then .ok .leaf
  else
    match parse_tree s (s.length + 1) 0 with
    | .error e => .error e
    | .ok (t, _) => .ok t

/-- `build_recursive`, the inner function of `build_from_pre_order`
(`Problem.py` lines 89-103): the shared cursor `index[0]` is the second
argument; past the end of the input it returns `None`, otherwise it takes
the current value as this node, advances the cursor, then builds the left
and right subtrees from the same cursor.  Returns the node and the final
cursor.  Fuel dominates the recursion depth. -/
def preBuildRec (pre_order : List Int) : Nat → Nat → TreeNode × Nat
  | 0, i => (.leaf, i)
  | fuel + 1, i =>
    if pre_order.length ≤ i then (.leaf, i)
    else
      let root := pre_order.getD i 0
      let lp := preBuildRec pre_order fuel (i + 1)
      let rp := preBuildRec pre_order fuel lp.2
      (.node root lp.1 rp.1, rp.2)

/-- `AdvancedTreeConstructor.build_from_pre_order` (`Problem.py` lines
89-103, identical in `problemvar.py`): `build_recursive([0])` on non-empty
input, `None` on empty input. -/
def build_from_pre_order (pre_order : List Int) : TreeNode :=
  if pre_order = [] then .leaf
  else (preBuildRec pre_order (pre_order.length + 1) 0).1

/-- `build_recursive`, the inner function of `build_from_post_order`
(`Problem.py` lines 105-120): the Python cursor runs from
`len(post_order) - 1` down to `-1`; it is represented here shifted by one
(`k` stands for `index[0] + 1`, so `k = 0` is the exhausted cursor
`index[0] = -1`).  A node is built from the element at the cursor, the
cursor decremented, then the right subtree is built before the left.
Returns the node and the final (shifted) cursor. -/
def postBuildRec (post_order : List Int) : Nat → Nat → TreeNode × Nat
  | 0, k => (.leaf, k)
  | fuel + 1, k =>
    match k with
    | 0 => (.leaf, 0)
    | k' + 1 =>
      let root := post_order.getD k' 0
      let rp := postBuildRec post_order fuel k'
      let lp := postBuildRec post_order fuel rp.2
      (.node root lp.1 rp.1, lp.2)

/-- `AdvancedTreeConstructor.build_from_post_order` (`Problem.py` lines
105-120, identical in `problemvar.py`): start the cursor at the last
element (`index = [len(post_order) - 1]`) on non-empty input, `None` on
empty input. -/
def build_from_post_order (post_order : List Int) : TreeNode :=
  if post_order = [] then .leaf
  else (postBuildRec post_order (post_order.length + 1) post_order.length).1

/-- `AdvancedTreeConstructor.build_from_in_order` (`problemvar.py` lines
163-170; `Problem.py` has no such method): unconditionally raises
`NotImplementedError` without looking at its input. -/
def build_from_in_order (_in_order : InputData) : Except String TreeNode :=
  .error "In-order reconstruction requires additional traversal info"

namespace Problem

/-- `AdvancedTreeConstructor.build_tree` of `Problem.py` (lines 22-37):
resolve the method (explicit name, else `detect_input_format`), look it up
in the table `{level_order, pre_order, parenthesis, post_order}` and call
the constructor; an unknown method (including Python `None`, formatted
`"None"` by the f-string) raises `ValueError`, which propagates to the
caller — there is no `try/except` in this file.  Combinations where a
list-format constructor receives a string payload build trees of
characters in Python; they fall outside this integer-tree model and are
reported as errors here (no claim exercises them), while the parenthesis
constructor on a list raises `AttributeError` in Python. -/
def build_tree (input_data : InputData) (method : Option String) :
    Except String TreeNode :=
  let m := match method with
    | none => detect_input_format input_data
    | some s => some s
  match m with
  | none => .error "Unsupported construction method: None"
  | some name =>
    if name = "level_order" then
      match input_data with
      | .list xs => .ok (build_from_level_order xs (-1))
      | .str _ => .error "level_order constructor on string input (not modelled)"
    else if name = "pre_order" then
      match input_data with
      | .list xs => .ok (build_from_pre_order xs)
      | .str _ => .error "pre_order constructor on string input (not modelled)"
    else if name = "parenthesis" then
      match input_data with
      | .str s => build_from_parenthesis s
      | .list _ => .error "AttributeError"
    else if name = "post_order" then
      match input_data with
      | .list xs => .ok (build_from_post_order xs)
      | .str _ => .error "post_order constructor on string input (not modelled)"
    else .error ("Unsupported construction method: " ++ name)

end Problem

namespace Problemvar

/-- `AdvancedTreeConstructor.build_tree` of `problemvar.py` (lines 37-70):
same dispatch as `Problem.build_tree` but the table also maps `in_order`
to `build_from_in_order`, and the whole dispatch sits in a
`try/except Exception` that prints `Tree Construction Error: {e}` and
returns `None`.  The embedding returns the tree the caller receives
(`leaf` = `None`) together with the printed error message, if any. -/
def build_tree (input_data : InputData) (method : Option String) :
    TreeNode × Option String :=
  let m := match method with
    | none => detect_input_format input_data
    | some s => some s
  let result : Except String TreeNode :=
    match m with
    | none => .error "Unsupported construction method: None"
    | some name =>
      if name = "level_order" then
        match input_data with
        | .list xs => .ok (build_from_level_order xs (-1))
        | .str _ => .error "level_order constructor on string input (not modelled)"
      else if name = "pre_order" then
        match input_data with
        | .list xs => .ok (build_from_pre_order xs)
        | .str _ => .error "pre_order constructor on string input (not modelled)"
      else if name = "parenthesis" then
        match input_data with
        | .str s => build_from_parenthesis s
        | .list _ => .error "AttributeError"
      else if name = "in_order" then build_from_in_order input_data
      else if name = "post_order" then
        match input_data with
        | .list xs => .ok (build_from_post_order xs)
        | .str _ => .error "post_order constructor on string input (not modelled)"
      else .error ("Unsupported construction method: " ++ name)
  match result with
  | .ok t => (t, none)
  | .error e => (.leaf, some ("Tree Construction Error: " ++ e))

end Problemvar

/-! ### Claim-side definitions

The following definitions do not come from the source; they spell out
measures and shapes the claims talk about, so the theorems can quote
them. -/

/-- Node count of a tree (the claims speak of "trees with at least 2
nodes" and of "node count equals the input length"). -/
def treeSize : TreeNode → Nat
  | .leaf => 0
  | .node _ l r => 1 + treeSize l + treeSize r

/-- The left-degenerate chain over a value list: the i-th node from the
root holds the i-th value and every right child is absent (the shape
claim C9 attributes to `build_from_pre_order`). -/
def leftChain : List Int → TreeNode
  | [] => .leaf
  | x :: xs => .node x (leftChain xs) .leaf

/-- The right-degenerate chain over a value list: the i-th node from the
root holds the i-th value and every left child is absent (the shape
claim C9 attributes to `build_from_post_order`, over the reversed
input). -/
def rightChain : List Int → TreeNode
  | [] => .leaf
  | x :: xs => .node x .leaf (rightChain xs)

/-! ### Helper lemmas -/

/-- The source's spelling `left if left > right else right` is `max`. -/
theorem if_gt_eq_max (a b : Nat) : (if a > b then a else b) = max a b := by
  split <;> omega

theorem max_depth_node (v : Int) (l r : TreeNode) :
    max_depth (.node v l r) = 1 + max (max_depth l) (max_depth r) := by
  simp only [max_depth]
  rw [if_gt_eq_max]

/-- The height component of `diameter_helper` is `max_depth`. -/
theorem diameter_helper_snd (t : TreeNode) : (diameter_helper t).2 = max_depth t := by
  induction t with
  | leaf => rfl
  | node v l r ihl ihr => simp [diameter_helper, max_depth_node, ihl, ihr]

/-- Unconditional bound: the diameter component of `diameter_helper`
never exceeds twice the height component. -/
theorem diameter_helper_fst_le (t : TreeNode) :
    (diameter_helper t).1 ≤ 2 * (diameter_helper t).2 := by
  induction t with
  | leaf => simp [diameter_helper]
  | node v l r ihl ihr =>
    simp only [diameter_helper]
    omega

/-- On any tree with at least one node, the computed diameter is at most
`2 * max_depth - 1`. -/
theorem tree_diameter_le_of_two_le (t : TreeNode) (h : 2 ≤ treeSize t) :
    tree_diameter t ≤ 2 * max_depth t - 1 := by
  cases t with
  | leaf => simp [treeSize] at h
  | node v l r =>
    have hl := diameter_helper_fst_le l
    have hr := diameter_helper_fst_le r
    have el := diameter_helper_snd l
    have er := diameter_helper_snd r
    simp only [tree_diameter, diameter_helper, max_depth_node, ← el, ← er]
    omega

/-! ### Claim theorems -/

/-- C1: on level-order input `[3,1,2,-1,-1,-1,-1]` with null marker `-1`,
the diameter operation returns 3, not the 2 the claim states —
`tree_diameter` counts the nodes of the longest path, one more than its
edge count. -/
theorem C1_level_order_scenario_counterexample :
    tree_diameter (build_from_level_order [3, 1, 2, -1, -1, -1, -1] (-1)) = 3 ∧
    tree_diameter (build_from_level_order [3, 1, 2, -1, -1, -1, -1] (-1)) ≠ 2 := by
  decide

/-- C1 (amended): building from level-order input `[3,1,2,-1,-1,-1,-1]`
with null marker `-1` returns the tree with root 3, left child 1, right
child 2, both leaves; on it `max_depth` returns 2 and the balance check
returns true, while the diameter operation returns 3 (it counts nodes on
the longest path, one more than the edge count). -/
theorem C1_level_order_scenario_amended :
    build_from_level_order [3, 1, 2, -1, -1, -1, -1] (-1) =
      TreeNode.node 3 (.node 1 .leaf .leaf) (.node 2 .leaf .leaf) ∧
    max_depth (build_from_level_order [3, 1, 2, -1, -1, -1, -1] (-1)) = 2 ∧
    is_balanced_tree (build_from_level_order [3, 1, 2, -1, -1, -1, -1] (-1)) = true ∧
    tree_diameter (build_from_level_order [3, 1, 2, -1, -1, -1, -1] (-1)) = 3 := by
  decide

/-- C2: on a single-node tree the diameter operation returns 1, not the 0
the claim states — `tree_diameter` counts the single node of the longest
path rather than its zero edges. -/
theorem C2_diameter_bound_counterexample :
    tree_diameter (TreeNode.node 0 .leaf .leaf) = 1 ∧
    tree_diameter (TreeNode.node 0 .leaf .leaf) ≠ 0 := by
  decide

/-- C2 (amended): for every tree with at least 2 nodes the diameter
operation returns at most `2 * max_depth - 1`; on every single-node tree
it returns 1 (the operation counts the nodes of the longest path, one
more than the edge count the claim's parenthetical describes). -/
theorem C2_diameter_bound_amended :
    (∀ t : TreeNode, 2 ≤ treeSize t → tree_diameter t ≤ 2 * max_depth t - 1) ∧
    (∀ v : Int, tree_diameter (.node v .leaf .leaf) = 1) :=
  ⟨tree_diameter_le_of_two_le, fun _ => rfl⟩

theorem C2_diameter_bound_witness :
    2 ≤ treeSize (TreeNode.node 1 (.node 2 .leaf .leaf) .leaf) ∧
    tree_diameter (TreeNode.node 1 (.node 2 .leaf .leaf) .leaf) ≤
      2 * max_depth (TreeNode.node 1 (.node 2 .leaf .leaf) .leaf) - 1 ∧
    tree_diameter (TreeNode.node 5 .leaf .leaf) = 1 :=
  ⟨by decide, C2_diameter_bound_amended.1 _ (by decide), C2_diameter_bound_amended.2 5⟩

/-- C3: invoking `Problem.py`'s dispatcher with the explicit format name
`in_order` reports the generic `Unsupported construction method`
condition (its table has no `in_order` entry), not the
insufficient-information condition the claim requires. -/
theorem C3_in_order_dispatch_counterexample :
    Problem.build_tree (.list [1, 2, 3]) (some "in_order") =
      .error "Unsupported construction method: in_order" ∧
    "Unsupported construction method: in_order" ≠
      "In-order reconstruction requires additional traversal info" :=
  ⟨rfl, by decide⟩

/-- C3 (amended): for every input, the dispatcher of `problemvar.py`
invoked with explicit format `in_order` hits the insufficient-information
condition raised by `build_from_in_order`, catches it, prints it as a
`Tree Construction Error`, and hands the caller no tree (`None`); the
dispatcher of `Problem.py`, whose table has no `in_order` entry, instead
raises the generic `Unsupported construction method: in_order` error and
also never returns a tree. -/
theorem C3_in_order_dispatch_amended :
    ∀ input : InputData,
      Problem.build_tree input (some "in_order") =
        .error "Unsupported construction method: in_order" ∧
      Problemvar.build_tree input (some "in_order") =
        (.leaf, some "Tree Construction Error: In-order reconstruction requires additional traversal info") :=
  fun _ => ⟨rfl, rfl⟩

/-- C4: for every input and every explicit format name outside the five
known ones, `Problem.py`'s dispatcher raises
`Unsupported construction method: <name>` and `problemvar.py`'s catches
the same raise and prints it as a `Tree Construction Error`; neither
returns a tree. -/
theorem C4_unsupported_method :
    ∀ (input : InputData) (m : String),
      ¬(m = "level_order" ∨ m = "pre_order" ∨ m = "parenthesis" ∨
        m = "post_order" ∨ m = "in_order") →
      Problem.build_tree input (some m) =
        .error ("Unsupported construction method: " ++ m) ∧
      Problemvar.build_tree input (some m) =
        (.leaf, some ("Tree Construction Error: Unsupported construction method: " ++ m)) := by
  intro input m hm
  push_neg at hm
  obtain ⟨h1, h2, h3, h4, h5⟩ := hm
  constructor
  · simp only [Problem.build_tree]
    rw [if_neg h1, if_neg h2, if_neg h3, if_neg h4]
  · simp only [Problemvar.build_tree]
    rw [if_neg h1, if_neg h2, if_neg h3, if_neg h5, if_neg h4]
    rfl

theorem C4_unsupported_method_witness :
    ¬("serialized" = "level_order" ∨ "serialized" = "pre_order" ∨
      "serialized" = "parenthesis" ∨ "serialized" = "post_order" ∨
      "serialized" = "in_order") ∧
    Problem.build_tree (.list [1, 2, 3]) (some "serialized") =
      .error "Unsupported construction method: serialized" ∧
    Problemvar.build_tree (.list [1, 2, 3]) (some "serialized") =
      (.leaf, some "Tree Construction Error: Unsupported construction method: serialized") :=
  ⟨by decide,
   (C4_unsupported_method (.list [1, 2, 3]) "serialized" (by decide)).1,
   (C4_unsupported_method (.list [1, 2, 3]) "serialized" (by decide)).2⟩

/-- C5: the format detector reports no format on empty input; otherwise,
on a list containing `-1` or `-999` it returns `level_order`, on a string
containing `(` or `)` it returns `parenthesis`, and on every remaining
non-empty input it returns `pre_order`; it never returns `unknown`. -/
theorem C5_format_detector :
    detect_input_format (.list []) = none ∧
    detect_input_format (.str []) = none ∧
    (∀ xs : List Int, xs ≠ [] → (-1 ∈ xs ∨ -999 ∈ xs) →
      detect_input_format (.list xs) = some "level_order") ∧
    (∀ xs : List Int, xs ≠ [] → ¬(-1 ∈ xs ∨ -999 ∈ xs) →
      detect_input_format (.list xs) = some "pre_order") ∧
    (∀ s : List Char, s ≠ [] → ('(' ∈ s ∨ ')' ∈ s) →
      detect_input_format (.str s) = some "parenthesis") ∧
    (∀ s : List Char, s ≠ [] → ¬('(' ∈ s ∨ ')' ∈ s) →
      detect_input_format (.str s) = some "pre_order") ∧
    (∀ d : InputData, detect_input_format d ≠ some "unknown") := by
  refine ⟨rfl, rfl, ?_, ?_, ?_, ?_, ?_⟩
  · intro xs h1 h2; simp [detect_input_format, h1, h2]
  · intro xs h1 h2; simp [detect_input_format, h1, h2]
  · intro s h1 h2; simp [detect_input_format, h1, h2]
  · intro s h1 h2; simp [detect_input_format, h1, h2]
  · intro d
    cases d with
    | list xs =>
      simp only [detect_input_format]
      split
      · simp
      · split <;> simp
    | str s =>
      simp only [detect_input_format]
      split
      · simp
      · split <;> simp

theorem C5_format_detector_witness :
    detect_input_format (.list [3, 1, 2, -1, -1, -1, -1]) = some "level_order" ∧
    detect_input_format (.str ['1', '(', '2', ')', '(', '3', ')']) = some "parenthesis" ∧
    detect_input_format (.list [5, 3, 8]) = some "pre_order" :=
  ⟨C5_format_detector.2.2.1 _ (by decide) (by decide),
   C5_format_detector.2.2.2.2.1 _ (by decide) (by decide),
   C5_format_detector.2.2.2.1 _ (by decide) (by decide)⟩

/-- C7: on the empty tree (absent root) `max_depth` returns 0, the
balance check returns true, and the diameter operation returns 0. -/
theorem C7_empty_tree_metrics :
    max_depth .leaf = 0 ∧ is_balanced_tree .leaf = true ∧ tree_diameter .leaf = 0 := by
  decide

/-- C8: pre-order reconstruction of `[1,2,4,5,3]` produces exactly the
left-degenerate chain 1-2-4-5-3 (the recursion consumes every value into
the left spine), a fixed shape with node count 5. -/
theorem C8_pre_order_fixed_shape :
    build_from_pre_order [1, 2, 4, 5, 3] =
      TreeNode.node 1
        (.node 2 (.node 4 (.node 5 (.node 3 .leaf .leaf) .leaf) .leaf) .leaf) .leaf ∧
    treeSize (build_from_pre_order [1, 2, 4, 5, 3]) = 5 := by
  decide

/-- C6: the parenthesis parser does not detect unbalanced parentheses:
on `"1(2"` — an opening parenthesis with no closing one — it silently
returns the tree `1(2)` instead of reporting a parse failure. -/
theorem C6_parenthesis_malformed_counterexample :
    build_from_parenthesis ['1', '(', '2'] =
      .ok (TreeNode.node 1 (.node 2 .leaf .leaf) .leaf) := by
  rfl

/-- With a non-numeric first character the value scanner does not move. -/
theorem parseValEnd_stuck (c : Char) (rest : List Char)
    (h : ¬(c.isDigit = true ∨ c = '-')) :
    parseValEnd (c :: rest) ((c :: rest).length + 1) 0 = 0 := by
  simp only [parseValEnd]
  rw [if_neg]
  intro hcon
  exact h (by simpa using hcon.2)

/-- C6 (amended): a non-numeric value token at the scanning position is a
parse failure — in particular every text whose first character is neither
a digit nor `-` makes `int` raise `ValueError` — but unbalanced
parentheses are not detected: the parser can silently return a tree, as
it does on `"1(2"`. -/
theorem C6_parenthesis_malformed_amended :
    (∀ (c : Char) (rest : List Char), ¬(c.isDigit = true ∨ c = '-') →
      build_from_parenthesis (c :: rest) =
        .error "invalid literal for int() with base 10") ∧
    build_from_parenthesis ['1', '(', '2'] =
      .ok (TreeNode.node 1 (.node 2 .leaf .leaf) .leaf) := by
  constructor
  · intro c rest h
    unfold build_from_parenthesis
    rw [if_neg (List.cons_ne_nil c rest)]
    simp only [parse_tree, parseValEnd_stuck c rest h]
    rfl
  · rfl

theorem C6_parenthesis_malformed_witness :
    ¬(('x' : Char).isDigit = true ∨ ('x' : Char) = '-') ∧
    build_from_parenthesis ['x'] = .error "invalid literal for int() with base 10" :=
  ⟨by decide, C6_parenthesis_malformed_amended.1 'x' [] (by decide)⟩

/-- With enough fuel, the pre-order recursion over the suffix starting at
`i` yields the left-degenerate chain of that suffix and leaves the cursor
at the input's end. -/
theorem preBuildRec_eq (pre : List Int) :
    ∀ fuel i : Nat, pre.length - i < fuel →
      preBuildRec pre fuel i = (leftChain (pre.drop i), max pre.length i) := by
  intro fuel
  induction fuel with
  | zero => intro i h; omega
  | succ f ih =>
    intro i h
    by_cases hi : pre.length ≤ i
    · simp only [preBuildRec, if_pos hi]
      rw [List.drop_eq_nil_of_le hi]
      simp [leftChain, Nat.max_eq_right hi]
    · push_neg at hi
      have hL := ih (i + 1) (by omega)
      have hR := ih pre.length (by omega)
      have hmax : max pre.length (i + 1) = pre.length := Nat.max_eq_left (by omega)
      simp only [preBuildRec, if_neg (by omega : ¬pre.length ≤ i), hL, hmax, hR]
      rw [List.drop_length, List.drop_eq_getElem_cons hi, List.getD_eq_getElem pre 0 hi]
      simp [leftChain, Nat.max_eq_left (le_of_lt hi)]

/-- With enough fuel, the post-order recursion with (shifted) cursor `k`
yields the right-degenerate chain of the reversed first `k` elements and
leaves the cursor exhausted. -/
theorem postBuildRec_eq (post : List Int) :
    ∀ fuel k : Nat, k < fuel → k ≤ post.length →
      postBuildRec post fuel k = (rightChain (post.take k).reverse, 0) := by
  intro fuel
  induction fuel with
  | zero => intro k h _; omega
  | succ f ih =>
    intro k h hk
    match k with
    | 0 => simp [postBuildRec, rightChain]
    | k' + 1 =>
      have hk' : k' < post.length := by omega
      have hR := ih k' (by omega) (by omega)
      have hL := ih 0 (by omega) (by omega)
      have hrev : (post.take (k' + 1)).reverse = post[k'] :: (post.take k').reverse := by
        rw [List.take_succ, List.getElem?_eq_getElem hk', List.reverse_append]
        rfl
      simp only [postBuildRec, hR, hL]
      rw [List.getD_eq_getElem post 0 hk', hrev]
      simp [rightChain]

theorem treeSize_leftChain (xs : List Int) : treeSize (leftChain xs) = xs.length := by
  induction xs with
  | nil => rfl
  | cons x xs ih =>
    simp [leftChain, treeSize, ih]
    omega

theorem treeSize_rightChain (xs : List Int) : treeSize (rightChain xs) = xs.length := by
  induction xs with
  | nil => rfl
  | cons x xs ih =>
    simp [rightChain, treeSize, ih]
    omega

/-- C9: on every non-empty value list, `build_from_pre_order` returns the
left-degenerate chain holding the values in order (every right child
absent, node count = input length), and `build_from_post_order` returns
the right-degenerate chain holding the values in reverse order (root
holds the last element, every left child absent, node count = input
length). -/
theorem C9_degenerate_chains (xs : List Int) (h : xs ≠ []) :
    build_from_pre_order xs = leftChain xs ∧
    treeSize (build_from_pre_order xs) = xs.length ∧
    build_from_post_order xs = rightChain xs.reverse ∧
    treeSize (build_from_post_order xs) = xs.length := by
  have hpre : build_from_pre_order xs = leftChain xs := by
    unfold build_from_pre_order
    rw [if_neg h, preBuildRec_eq xs (xs.length + 1) 0 (by omega)]
    simp
  have hpost : build_from_post_order xs = rightChain xs.reverse := by
    unfold build_from_post_order
    rw [if_neg h, postBuildRec_eq xs (xs.length + 1) xs.length (by omega) (le_refl _)]
    simp
  refine ⟨hpre, ?_, hpost, ?_⟩
  · rw [hpre, treeSize_leftChain]
  · rw [hpost, treeSize_rightChain, List.length_reverse]

theorem C9_degenerate_chains_witness :
    ([1, 2, 3] : List Int) ≠ [] ∧
    (build_from_pre_order [1, 2, 3] = leftChain [1, 2, 3] ∧
     treeSize (build_from_pre_order [1, 2, 3]) = 3 ∧
     build_from_post_order [1, 2, 3] = rightChain ([1, 2, 3] : List Int).reverse ∧
     treeSize (build_from_post_order [1, 2, 3]) = 3) :=
  ⟨by decide, C9_degenerate_chains [1, 2, 3] (by decide)⟩

/-- An in-bounds `getD` read is an element of the list. -/
theorem getD_mem_of_lt (xs : List Int) (i : Nat) (h : i < xs.length) :
    xs.getD i 0 ∈ xs := by
  rw [List.getD_eq_getElem xs 0 h]
  exact List.getElem_mem h

/-- The level-order loop only applies its null test to elements of the
input, so two tests agreeing on every element drive it identically. -/
theorem levelLoop_congr (xs : List Int) (f g : Int → Bool)
    (h : ∀ a ∈ xs, f a = g a) :
    ∀ (fuel : Nat) (store : List SNode) (queue : List Nat) (i : Nat),
      levelLoop xs f fuel store queue i = levelLoop xs g fuel store queue i := by
  intro fuel
  induction fuel with
  | zero => intro store queue i; rfl
  | succ n ih =>
    intro store queue i
    cases queue with
    | nil => rfl
    | cons current rest =>
      by_cases hi : i < xs.length
      · have e1 : f (xs.getD i 0) = g (xs.getD i 0) := h _ (getD_mem_of_lt xs i hi)
        by_cases hi1 : i + 1 < xs.length
        · have e2 : f (xs.getD (i + 1) 0) = g (xs.getD (i + 1) 0) :=
            h _ (getD_mem_of_lt xs (i + 1) hi1)
          simp only [levelLoop, hi, hi1, if_true, e1, e2]
          exact ih _ _ _
        · simp only [levelLoop, hi, hi1, if_true, if_false, e1]
          exact ih _ _ _
      · simp only [levelLoop, hi, if_false]

/-- On lists avoiding `-999`, the null test of
`build_from_level_order (null_marker := -1)` agrees element-wise with the
default null-marker-set test of `LevelOrderTreeConstructor.build_tree`. -/
theorem marker_tests_agree (xs : List Int) (h999 : (-999 : Int) ∉ xs) :
    ∀ a ∈ xs, (a == (-1 : Int)) = decide (a ∈ ([-1, -999] : List Int)) := by
  intro a ha
  have h2 : a ≠ -999 := fun e => by
    apply h999
    rw [← e]
    exact ha
  by_cases h1 : a = -1
  · rw [h1]
    decide
  · have hb : (a == (-1 : Int)) = false := by simpa using h1
    have hd : decide (a ∈ ([-1, -999] : List Int)) = false := by simp [h1, h2]
    rw [hb, hd]

/-- C10: the two level-order builders disagree in general.  On `[-1, 5]`,
`build_from_level_order` (marker `-1`) returns the empty tree while
`LevelOrderTreeConstructor.build_tree` strips the leading marker — thereby
mutating the caller's list to `[5]` — and returns the one-node tree 5; on
`[1, -999]`, the former keeps `-999` as an ordinary value while the
latter's default marker set treats it as null. -/
theorem C10_level_order_builders_counterexample :
    build_from_level_order [-1, 5] (-1) = .leaf ∧
    (LevelOrderTreeConstructor.build_tree [-1, 5]).1 = TreeNode.node 5 .leaf .leaf ∧
    (LevelOrderTreeConstructor.build_tree [-1, 5]).2 = [5] ∧
    build_from_level_order [1, -999] (-1) =
      TreeNode.node 1 (.node (-999) .leaf .leaf) .leaf ∧
    (LevelOrderTreeConstructor.build_tree [1, -999]).1 = TreeNode.node 1 .leaf .leaf := by
  decide

/-- C10 (amended): on every value list that does not contain `-999` and
does not start with `-1`, `AdvancedTreeConstructor.build_from_level_order`
with null marker `-1` and `LevelOrderTreeConstructor.build_tree` with its
default null markers construct identical trees, and `build_tree` leaves
the caller's list unchanged.  (In general `build_tree` additionally
treats `-999` — and `None` — as null markers and pops leading null
markers off the caller's list, so the two differ there.) -/
theorem C10_level_order_builders_amended (xs : List Int)
    (h999 : (-999 : Int) ∉ xs) (hhead : xs.head? ≠ some (-1)) :
    build_from_level_order xs (-1) = (LevelOrderTreeConstructor.build_tree xs).1 ∧
    (LevelOrderTreeConstructor.build_tree xs).2 = xs := by
  match xs with
  | [] => exact ⟨rfl, rfl⟩
  | x :: rest =>
    have hx1 : x ≠ -1 := by
      intro e
      exact hhead (by rw [e]; rfl)
    have hx2 : x ≠ -999 := by
      intro e
      apply h999
      rw [← e]
      exact List.mem_cons_self x rest
    have hmem : decide (x ∈ ([-1, -999] : List Int)) = false := by simp [hx1, hx2]
    have hcond : ¬(x :: rest = [] ∨
        (x :: rest).all (fun a => decide (a ∈ ([-1, -999] : List Int))) = true) := by
      intro hor
      cases hor with
      | inl hnil => exact List.cons_ne_nil x rest hnil
      | inr hall =>
        rw [List.all_cons, hmem] at hall
        exact absurd hall (by simp)
    have hloops :
        levelLoop (x :: rest) (fun a => a == (-1 : Int)) ((x :: rest).length + 1)
          [⟨x, none, none⟩] [0] 1 =
        levelLoop (x :: rest) (fun a => decide (a ∈ ([-1, -999] : List Int)))
          ((x :: rest).length + 1) [⟨x, none, none⟩] [0] 1 :=
      levelLoop_congr _ _ _ (marker_tests_agree _ h999) _ _ _ _
    constructor
    · simp only [build_from_level_order, LevelOrderTreeConstructor.build_tree,
        if_neg hx1, if_neg hcond, List.dropWhile_cons, hmem, Bool.false_eq_true,
        if_false, hloops]
    · simp only [LevelOrderTreeConstructor.build_tree, if_neg hcond,
        List.dropWhile_cons, hmem, Bool.false_eq_true, if_false]

theorem C10_level_order_builders_witness :
    ((-999 : Int) ∉ ([3, 1, 2, -1, -1, -1, -1] : List Int)) ∧
    (([3, 1, 2, -1, -1, -1, -1] : List Int).head? ≠ some (-1)) ∧
    (build_from_level_order [3, 1, 2, -1, -1, -1, -1] (-1) =
       (LevelOrderTreeConstructor.build_tree [3, 1, 2, -1, -1, -1, -1]).1 ∧
     (LevelOrderTreeConstructor.build_tree [3, 1, 2, -1, -1, -1, -1]).2 =
       [3, 1, 2, -1, -1, -1, -1]) :=
  ⟨by decide, by decide,
   C10_level_order_builders_amended [3, 1, 2, -1, -1, -1, -1] (by decide) (by decide)⟩
